import Mathlib

/-
Verification of the dataset adapters in box_delivery_dataset.py
(BoxDeliveryImageDataset and BoxDeliveryLowdimDataset).

Numpy arrays are embedded as nested lists of rationals; a numpy dtype is
carried alongside as a tag (astype only retags in this model).  Boolean
episode masks are lists of booleans, with the numpy elementwise negation
of a mask embedded as List.map not.  The external collaborators
(get_val_mask, downsample_mask) are taken as explicit function parameters
of the constructors; SequenceSampler, ReplayBuffer.copy_from_path,
LinearNormalizer and get_image_range_normalizer live outside this file's
source and are modelled from the specification where noted.
-/

namespace BoxDelivery

/-- Numpy dtype tag carried by an embedded array. -/
inductive DType where
  | uint8
  | float32
  | float64
deriving DecidableEq, Repr

/-- Embedded 2-dimensional numpy array: a dtype tag and a list of rows. -/
structure Arr2 where
  dtype : DType
  val : List (List ℚ)
deriving DecidableEq, Repr

/-- Embedded 4-dimensional numpy array (e.g. a T x H x W x C image stack). -/
structure Arr4 where
  dtype : DType
  val : List (List (List (List ℚ)))
deriving DecidableEq, Repr

/-- All scalar entries of a 2-dimensional nested list. -/
def elems2 (l : List (List ℚ)) : List ℚ := l.flatten

/-- All scalar entries of a 3-dimensional nested list. -/
def elems3 (l : List (List (List ℚ))) : List ℚ := (l.map elems2).flatten

/-- All scalar entries of a 4-dimensional nested list. -/
def elems4 (l : List (List (List (List ℚ)))) : List ℚ := (l.map elems3).flatten

/-- Result dtype of dividing a numpy array by a Python int (255):
integer dtypes promote to float64, float dtypes keep their precision. -/
def divPromote : DType → DType
  | .uint8 => .float64
  | .float32 => .float32
  | .float64 => .float64

/-- Embedding of np.moveaxis(frame, -1, 0) on one H x W x C frame: the
channel axis becomes the leading axis, so entry [c][h][w] of the result is
entry [h][w][c] of the input (out-of-range channel reads default to 0,
which cannot occur on a rectangular numpy array). -/
def moveaxisFrame (frame : List (List (List ℚ))) : List (List (List ℚ)) :=
  (List.range (((frame.headD []).headD []).length)).map
    (fun c => frame.map (fun row => row.map (fun px => px.getD c 0)))

/-- Embedding of np.moveaxis(img, -1, 1) on a T x H x W x C stack:
each frame's channel axis is moved to the front, giving T x C x H x W. -/
def moveaxisLast1 (img : List (List (List (List ℚ)))) :
    List (List (List (List ℚ))) :=
  img.map moveaxisFrame

/-- One window returned by the image sampler: the img, state and action
fields of the replay buffer restricted to the window. -/
structure ImageSample where
  img : Arr4
  state : Arr2
  action : Arr2
deriving DecidableEq, Repr

/-- The obs sub-dictionary produced by the image adapter. -/
structure ImageObs where
  image : Arr4
  agent_pos : Arr2
deriving DecidableEq, Repr

/-- The dictionary returned by BoxDeliveryImageDataset.__getitem__. -/
structure ImageItem where
  obs : ImageObs
  action : Arr2
deriving DecidableEq, Repr

/-- Embedding of BoxDeliveryImageDataset._sample_to_data: agent_pos is
state[:, :2] cast to float32, image is np.moveaxis(img, -1, 1) / 255, and
action is cast to float32. -/
def imageSampleToData (s : ImageSample) : ImageItem :=
  { obs :=
    { image :=
      { dtype := divPromote s.img.dtype
      , val := (moveaxisLast1 s.img.val).map
          (List.map (List.map (List.map (fun p => p / 255)))) }
    , agent_pos := { dtype := .float32, val := s.state.val.map (List.take 2) } }
  , action := { dtype := .float32, val := s.action.val } }

/-- Embedding of BoxDeliveryImageDataset.__getitem__: the external
sampler's sample_sequence is abstracted as a function from index to
window; dict_apply(.., torch.from_numpy) keeps values and dtypes, so it
is the identity in this embedding. -/
def imageGetItem (sample_sequence : Nat → ImageSample) (idx : Nat) : ImageItem :=
  imageSampleToData (sample_sequence idx)

/-- Modelled from the spec: a SequenceSampler is constructed from a replay
buffer, a sequence length and padding amounts, restricted to an episode
inclusion mask; this record keeps exactly those constructor arguments. -/
structure SeqSampler (R : Type) where
  replay_buffer : R
  sequence_length : Nat
  pad_before : Nat
  pad_after : Nat
  episode_mask : List Bool
deriving DecidableEq, Repr

/-- Replay buffer of the image adapter after copy_from_path with keys
img, state, action. -/
structure ImageReplayBuffer where
  n_episodes : Nat
  img : Arr4
  state : Arr2
  action : Arr2
deriving DecidableEq, Repr

/-- State of a BoxDeliveryImageDataset object: the attributes assigned by
its constructor. -/
structure ImageDS where
  replay_buffer : ImageReplayBuffer
  sampler : SeqSampler ImageReplayBuffer
  train_mask : List Bool
  horizon : Nat
  pad_before : Nat
  pad_after : Nat
deriving DecidableEq, Repr

/-- Embedding of BoxDeliveryImageDataset.__init__: the external mask
utilities get_val_mask(n_episodes, val_ratio, seed) and
downsample_mask(mask, max_n, seed) are explicit function parameters; the
numpy negation of the boolean mask is List.map not. -/
def imageDatasetInit
    (get_val_mask : Nat → ℚ → Nat → List Bool)
    (downsample_mask : List Bool → Option Nat → Nat → List Bool)
    (rb : ImageReplayBuffer)
    (horizon pad_before pad_after : Nat)
    (seed : Nat) (val_ratio : ℚ) (max_train_episodes : Option Nat) : ImageDS :=
  let val_mask := get_val_mask rb.n_episodes val_ratio seed
  let train_mask0 := val_mask.map not
  let train_mask := downsample_mask train_mask0 max_train_episodes seed
  { replay_buffer := rb
  , sampler := ⟨rb, horizon, pad_before, pad_after, train_mask⟩
  , train_mask := train_mask
  , horizon := horizon
  , pad_before := pad_before
  , pad_after := pad_after }

/-- Embedding of BoxDeliveryImageDataset.get_validation_dataset: copy.copy
makes a shallow copy of self; the method then assigns the copy's sampler
and train_mask.  The returned pair is (self after the call, val_set): no
statement of the method assigns to self, so the first component is self
unchanged. -/
def imageGetValidationDataset (self : ImageDS) : ImageDS × ImageDS :=
  let val_set := self
  let val_set := { val_set with
    sampler := ⟨self.replay_buffer, self.horizon, self.pad_before,
                self.pad_after, self.train_mask.map not⟩ }
  let val_set := { val_set with train_mask := self.train_mask.map not }
  (self, val_set)

/-- Modelled from the spec: get_image_range_normalizer() is a fixed-range
normalizer for pixel values, not fit from stored data; it is an opaque tag
here. -/
inductive ImageEntry where
  | rangeNormalizer
deriving DecidableEq, Repr

/-- Modelled from the spec: a LinearNormalizer fitted by the image adapter
records the data dictionary passed to fit together with last_n_dims and
mode, plus the entry installed under the image key without fitting. -/
structure ImageNormalizer where
  fit_data : List (String × Arr2)
  last_n_dims : Nat
  mode : String
  image : ImageEntry
deriving DecidableEq, Repr

/-- Embedding of BoxDeliveryImageDataset.get_normalizer: fit is called on
the dictionary with the full action array and state[..., :2] under key
agent_pos, with last_n_dims = 1, and the image entry is assigned
get_image_range_normalizer(). -/
def imageGetNormalizer (self : ImageDS) (mode : String) : ImageNormalizer :=
  { fit_data :=
      [ ("action", self.replay_buffer.action)
      , ("agent_pos",
         { dtype := self.replay_buffer.state.dtype
         , val := self.replay_buffer.state.val.map (List.take 2) }) ]
  , last_n_dims := 1
  , mode := mode
  , image := .rangeNormalizer }

/-- A named array stored in the lowdim replay buffer: 2-dimensional
(rows of features) or 3-dimensional (a 2-dimensional slab per timestep). -/
inductive FieldArr where
  | f2 (v : List (List ℚ))
  | f3 (v : List (List (List ℚ)))
deriving DecidableEq, Repr

/-- Lookup of a field by name, first match wins (dictionary access). -/
def lookupF : List (String × FieldArr) → String → Option FieldArr
  | [], _ => none
  | (a, f) :: rest, k => if a = k then some f else lookupF rest k

/-- Replay buffer of the lowdim adapter: episode count and named fields. -/
structure LowdimReplayBuffer where
  n_episodes : Nat
  fields : List (String × FieldArr)
deriving DecidableEq, Repr

/-- Modelled from the spec: ReplayBuffer.copy_from_path loads exactly the
named fields of the on-disk store; the store is a value here and loading
keeps the fields whose name is among the requested keys. -/
def copyFromPath (store : LowdimReplayBuffer) (keys : List String) :
    LowdimReplayBuffer :=
  { n_episodes := store.n_episodes
  , fields := store.fields.filter (fun p => keys.contains p.1) }

/-- State of a BoxDeliveryLowdimDataset object: the attributes assigned by
its constructor (mask_key is not stored on self). -/
structure LowdimDS where
  replay_buffer : LowdimReplayBuffer
  sampler : SeqSampler LowdimReplayBuffer
  obs_key : String
  state_key : String
  action_key : String
  train_mask : List Bool
  horizon : Nat
  pad_before : Nat
  pad_after : Nat
deriving DecidableEq, Repr

/-- Embedding of BoxDeliveryLowdimDataset.__init__: loads the four named
fields from the store, computes the split masks exactly as the image
adapter does, and builds the train-restricted sampler. -/
def lowdimDatasetInit
    (get_val_mask : Nat → ℚ → Nat → List Bool)
    (downsample_mask : List Bool → Option Nat → Nat → List Bool)
    (store : LowdimReplayBuffer)
    (horizon pad_before pad_after : Nat)
    (obs_key state_key action_key mask_key : String)
    (seed : Nat) (val_ratio : ℚ) (max_train_episodes : Option Nat) : LowdimDS :=
  let rb := copyFromPath store [obs_key, state_key, action_key, mask_key]
  let val_mask := get_val_mask rb.n_episodes val_ratio seed
  let train_mask0 := val_mask.map not
  let train_mask := downsample_mask train_mask0 max_train_episodes seed
  { replay_buffer := rb
  , sampler := ⟨rb, horizon, pad_before, pad_after, train_mask⟩
  , obs_key := obs_key
  , state_key := state_key
  , action_key := action_key
  , train_mask := train_mask
  , horizon := horizon
  , pad_before := pad_before
  , pad_after := pad_after }

/-- Embedding of BoxDeliveryLowdimDataset.get_validation_dataset, the same
shallow-copy-then-patch pattern as the image adapter. -/
def lowdimGetValidationDataset (self : LowdimDS) : LowdimDS × LowdimDS :=
  let val_set := self
  let val_set := { val_set with
    sampler := ⟨self.replay_buffer, self.horizon, self.pad_before,
                self.pad_after, self.train_mask.map not⟩ }
  let val_set := { val_set with train_mask := self.train_mask.map not }
  (self, val_set)

/-- Numpy reshape(shape[0], -1) applied to a stored field: a 2-dimensional
field is unchanged, a 3-dimensional field has each per-timestep slab
flattened into one row. -/
def reshapeRows : FieldArr → List (List ℚ)
  | .f2 v => v
  | .f3 v => v.map List.flatten

/-- Reading a field as a 2-dimensional array of rows, as
np.concatenate(..., axis=-1) against a (time, k) array requires; a
3-dimensional field there is a shape error, hence none. -/
def asRows2 : FieldArr → Option (List (List ℚ))
  | .f2 v => some v
  | .f3 _ => none

/-- The record returned by the lowdim record-building transform. -/
structure LowdimData where
  obs : List (List ℚ)
  action : FieldArr
deriving DecidableEq, Repr

/-- Embedding of BoxDeliveryLowdimDataset._sample_to_data: looks up the
observation, goal and action fields of the sample by the configured keys,
flattens the observation field to (time, -1), concatenates it with the
goal field along the last axis (requiring equal leading dimensions), and
pairs the result with the raw action field.  Missing keys or a shape
mismatch surface as none. -/
def lowdimSampleToData (obs_key state_key action_key : String)
    (sample : List (String × FieldArr)) : Option LowdimData := do
  let state ← lookupF sample obs_key
  let goal ← lookupF sample state_key
  let action ← lookupF sample action_key
  let goal2 ← asRows2 goal
  let stateRows := reshapeRows state
  if stateRows.length = goal2.length then
    pure { obs := List.zipWith (fun s g => s ++ g) stateRows goal2
         , action := action }
  else
    none

/-- Window of a stored field along the time axis: the given row indices
are read in order (padding repeats boundary indices; an out-of-range read
defaults to an empty row and cannot occur for in-range windows). -/
def windowField (rows : List Nat) : FieldArr → FieldArr
  | .f2 v => .f2 (rows.map (fun i => v.getD i []))
  | .f3 v => .f3 (rows.map (fun i => v.getD i []))

/-- Modelled from the spec: SequenceSampler.sample_sequence yields, for
each loaded field, the window of that field's rows at positions determined
only by the index and the episode structure; rowsOf gives those positions.
Every field of one sample is windowed at the same positions. -/
def sampleSequence (rowsOf : Nat → List Nat)
    (rb : LowdimReplayBuffer) (idx : Nat) : List (String × FieldArr) :=
  rb.fields.map (fun p => (p.1, windowField (rowsOf idx) p.2))

/-- Embedding of BoxDeliveryLowdimDataset.__getitem__:
_sample_to_data applied to the sampled window (dict_apply with
torch.from_numpy keeps values, so it is the identity here). -/
def lowdimGetItem (rowsOf : Nat → List Nat) (self : LowdimDS) (idx : Nat) :
    Option LowdimData :=
  lowdimSampleToData self.obs_key self.state_key self.action_key
    (sampleSequence rowsOf self.replay_buffer idx)

/-- Modelled from the spec: a LinearNormalizer fitted by the lowdim
adapter records the obs/action data passed to fit, last_n_dims and mode. -/
structure LowdimNormalizer where
  fit_data : LowdimData
  last_n_dims : Nat
  mode : String
deriving DecidableEq, Repr

/-- Embedding of BoxDeliveryLowdimDataset.get_normalizer: _sample_to_data
is applied to the replay buffer itself, whose key access returns the full
unwindowed field, and the result is fit with last_n_dims = 1. -/
def lowdimGetNormalizer (self : LowdimDS) (mode : String) :
    Option LowdimNormalizer :=
  (lowdimSampleToData self.obs_key self.state_key self.action_key
      self.replay_buffer.fields).map
    (fun data => { fit_data := data, last_n_dims := 1, mode := mode })

/-- Embedding of BoxDeliveryLowdimDataset.get_all_actions: the entire
action field, unwindowed (a missing key is a KeyError, hence none). -/
def lowdimGetAllActions (self : LowdimDS) : Option FieldArr :=
  lookupF self.replay_buffer.fields self.action_key

/-! Helper lemmas about masks and lookups. -/

theorem zipWith_and_not (m : List Bool) :
    List.zipWith (fun a b => a && b) m (m.map not) = m.map (fun _ => false) := by
  induction m with
  | nil => rfl
  | cons b t ih => simp [ih]

theorem zipWith_or_not (m : List Bool) :
    List.zipWith (fun a b => a || b) m (m.map not) = m.map (fun _ => true) := by
  induction m with
  | nil => rfl
  | cons b t ih => simp [ih]

theorem map_not_not (m : List Bool) : (m.map not).map not = m := by
  simp [List.map_map, Function.comp_def, Bool.not_not]

/-- C1: for every image or lowdim dataset, get_validation_dataset returns a
view whose train_mask is the elementwise complement of the caller's
train_mask (hence the two masks are elementwise disjoint and elementwise
cover the episodes), while the caller's own train_mask and sampler are
unchanged by the call. -/
theorem C1_validation_complement_and_frame (d : ImageDS) (e : LowdimDS) :
    ((imageGetValidationDataset d).2.train_mask = d.train_mask.map not ∧
     List.zipWith (fun a b => a && b) d.train_mask
        (imageGetValidationDataset d).2.train_mask
        = d.train_mask.map (fun _ => false) ∧
     List.zipWith (fun a b => a || b) d.train_mask
        (imageGetValidationDataset d).2.train_mask
        = d.train_mask.map (fun _ => true) ∧
     (imageGetValidationDataset d).1.train_mask = d.train_mask ∧
     (imageGetValidationDataset d).1.sampler = d.sampler) ∧
    ((lowdimGetValidationDataset e).2.train_mask = e.train_mask.map not ∧
     List.zipWith (fun a b => a && b) e.train_mask
        (lowdimGetValidationDataset e).2.train_mask
        = e.train_mask.map (fun _ => false) ∧
     List.zipWith (fun a b => a || b) e.train_mask
        (lowdimGetValidationDataset e).2.train_mask
        = e.train_mask.map (fun _ => true) ∧
     (lowdimGetValidationDataset e).1.train_mask = e.train_mask ∧
     (lowdimGetValidationDataset e).1.sampler = e.sampler) := by
  refine ⟨⟨rfl, ?_, ?_, rfl, rfl⟩, ⟨rfl, ?_, ?_, rfl, rfl⟩⟩
  · exact zipWith_and_not d.train_mask
  · exact zipWith_or_not d.train_mask
  · exact zipWith_and_not e.train_mask
  · exact zipWith_or_not e.train_mask

/-- C10: for either adapter, deriving the validation view twice round-trips
the mask (complement is an involution), and the doubly-derived view's
sampler is built over the original train mask with the same horizon,
pad_before and pad_after (and the same replay buffer). -/
theorem C10_validation_involution (d : ImageDS) (e : LowdimDS) :
    ((imageGetValidationDataset (imageGetValidationDataset d).2).2.train_mask
        = d.train_mask ∧
     (imageGetValidationDataset (imageGetValidationDataset d).2).2.sampler
        = ⟨d.replay_buffer, d.horizon, d.pad_before, d.pad_after,
           d.train_mask⟩) ∧
    ((lowdimGetValidationDataset (lowdimGetValidationDataset e).2).2.train_mask
        = e.train_mask ∧
     (lowdimGetValidationDataset (lowdimGetValidationDataset e).2).2.sampler
        = ⟨e.replay_buffer, e.horizon, e.pad_before, e.pad_after,
           e.train_mask⟩) := by
  refine ⟨⟨?_, ?_⟩, ⟨?_, ?_⟩⟩
  · exact map_not_not d.train_mask
  · simp only [imageGetValidationDataset, map_not_not]
  · exact map_not_not e.train_mask
  · simp only [lowdimGetValidationDataset, map_not_not]

/-- C4: the train_mask computed at construction is a deterministic function
of n_episodes, val_ratio, seed and max_train_episodes: two constructions of
the same adapter class whose stores have the same episode count and whose
seed, val_ratio and max_train_episodes agree produce identical train_mask
arrays, for both adapters. -/
theorem C4_train_mask_deterministic
    (get_val_mask : Nat → ℚ → Nat → List Bool)
    (downsample_mask : List Bool → Option Nat → Nat → List Bool)
    (rb1 rb2 : ImageReplayBuffer) (s1 s2 : LowdimReplayBuffer)
    (h1 pb1 pa1 h2 pb2 pa2 hl1 pbl1 pal1 hl2 pbl2 pal2 : Nat)
    (ok1 sk1 ak1 mk1 ok2 sk2 ak2 mk2 : String)
    (seed : Nat) (val_ratio : ℚ) (max_train_episodes : Option Nat)
    (himg : rb1.n_episodes = rb2.n_episodes)
    (hlow : s1.n_episodes = s2.n_episodes) :
    (imageDatasetInit get_val_mask downsample_mask rb1 h1 pb1 pa1
        seed val_ratio max_train_episodes).train_mask
      = (imageDatasetInit get_val_mask downsample_mask rb2 h2 pb2 pa2
        seed val_ratio max_train_episodes).train_mask ∧
    (lowdimDatasetInit get_val_mask downsample_mask s1 hl1 pbl1 pal1
        ok1 sk1 ak1 mk1 seed val_ratio max_train_episodes).train_mask
      = (lowdimDatasetInit get_val_mask downsample_mask s2 hl2 pbl2 pal2
        ok2 sk2 ak2 mk2 seed val_ratio max_train_episodes).train_mask := by
  constructor
  · simp only [imageDatasetInit, himg]
  · simp only [lowdimDatasetInit, copyFromPath, hlow]

theorem getD_map_not_true {m : List Bool} {i : Nat}
    (h : (m.map not).getD i false = true) : m.getD i false = false := by
  induction m generalizing i with
  | nil => simp [List.getD] at h
  | cons b t ih =>
    cases i with
    | zero => simpa using h
    | succ k => exact ih (by simpa using h)

/-- C5: on construction of either adapter the train mask is
downsample_mask applied to the complement of the validation mask; under
the submask part of downsample_mask's contract every selected episode lies
outside the validation mask, and under the count part at most
max_train_episodes episodes are selected when it is given. -/
theorem C5_train_mask_construction
    (get_val_mask : Nat → ℚ → Nat → List Bool)
    (downsample_mask : List Bool → Option Nat → Nat → List Bool)
    (rb : ImageReplayBuffer) (store : LowdimReplayBuffer)
    (h1 pb1 pa1 h2 pb2 pa2 : Nat)
    (obs_key state_key action_key mask_key : String)
    (seed : Nat) (val_ratio : ℚ) (max_train_episodes : Option Nat)
    (hsub : ∀ (m : List Bool) (n : Option Nat) (s i : Nat),
        (downsample_mask m n s).getD i false = true → m.getD i false = true)
    (hcount : ∀ (m : List Bool) (k s : Nat),
        (downsample_mask m (some k) s).count true ≤ k) :
    ((imageDatasetInit get_val_mask downsample_mask rb h1 pb1 pa1
        seed val_ratio max_train_episodes).train_mask
      = downsample_mask ((get_val_mask rb.n_episodes val_ratio seed).map not)
          max_train_episodes seed ∧
     (∀ i, (imageDatasetInit get_val_mask downsample_mask rb h1 pb1 pa1
        seed val_ratio max_train_episodes).train_mask.getD i false = true →
        (get_val_mask rb.n_episodes val_ratio seed).getD i false = false) ∧
     (∀ k, max_train_episodes = some k →
        (imageDatasetInit get_val_mask downsample_mask rb h1 pb1 pa1
          seed val_ratio max_train_episodes).train_mask.count true ≤ k)) ∧
    ((lowdimDatasetInit get_val_mask downsample_mask store h2 pb2 pa2
        obs_key state_key action_key mask_key
        seed val_ratio max_train_episodes).train_mask
      = downsample_mask ((get_val_mask store.n_episodes val_ratio seed).map not)
          max_train_episodes seed ∧
     (∀ i, (lowdimDatasetInit get_val_mask downsample_mask store h2 pb2 pa2
        obs_key state_key action_key mask_key
        seed val_ratio max_train_episodes).train_mask.getD i false = true →
        (get_val_mask store.n_episodes val_ratio seed).getD i false = false) ∧
     (∀ k, max_train_episodes = some k →
        (lowdimDatasetInit get_val_mask downsample_mask store h2 pb2 pa2
          obs_key state_key action_key mask_key
          seed val_ratio max_train_episodes).train_mask.count true ≤ k)) := by
  refine ⟨⟨rfl, ?_, ?_⟩, ⟨rfl, ?_, ?_⟩⟩
  · intro i hi
    exact getD_map_not_true (hsub _ max_train_episodes seed i hi)
  · intro k hk
    subst hk
    exact hcount _ k seed
  · intro i hi
    exact getD_map_not_true (hsub _ max_train_episodes seed i hi)
  · intro k hk
    subst hk
    exact hcount _ k seed

/-! Lemmas for tracking scalar entries through maps and moveaxis. -/

theorem elems2_map (f : ℚ → ℚ) (l : List (List ℚ)) :
    elems2 (l.map (List.map f)) = (elems2 l).map f := by
  induction l with
  | nil => rfl
  | cons a t ih =>
    simp only [elems2, List.map_cons, List.flatten_cons, List.map_append] at ih ⊢
    rw [ih]

theorem elems3_map (f : ℚ → ℚ) (l : List (List (List ℚ))) :
    elems3 (l.map (List.map (List.map f))) = (elems3 l).map f := by
  induction l with
  | nil => rfl
  | cons a t ih =>
    simp only [elems3, List.map_cons, List.flatten_cons, List.map_append] at ih ⊢
    rw [elems2_map, ih]

theorem elems4_map (f : ℚ → ℚ) (l : List (List (List (List ℚ)))) :
    elems4 (l.map (List.map (List.map (List.map f)))) = (elems4 l).map f := by
  induction l with
  | nil => rfl
  | cons a t ih =>
    simp only [elems4, List.map_cons, List.flatten_cons, List.map_append] at ih ⊢
    rw [elems3_map, ih]

theorem getD_mem_or_default {α : Type} (l : List α) (n : Nat) (d : α) :
    l.getD n d ∈ l ∨ l.getD n d = d := by
  induction l generalizing n with
  | nil => right; simp [List.getD]
  | cons a t ih =>
    cases n with
    | zero => left; simp
    | succ k =>
      rw [List.getD_cons_succ]
      rcases ih k with h | h
      · exact Or.inl (List.mem_cons_of_mem a h)
      · exact Or.inr h

theorem mem_elems3_moveaxisFrame {y : ℚ} {frame : List (List (List ℚ))}
    (h : y ∈ elems3 (moveaxisFrame frame)) : y ∈ elems3 frame ∨ y = 0 := by
  simp only [moveaxisFrame, elems3, elems2, List.mem_flatten, List.mem_map] at h
  obtain ⟨s, ⟨ch, ⟨c, _, rfl⟩, rfl⟩, hy⟩ := h
  rw [List.mem_flatten] at hy
  obtain ⟨r, hr, hyr⟩ := hy
  rw [List.mem_map] at hr
  obtain ⟨row, hrow, rfl⟩ := hr
  rw [List.mem_map] at hyr
  obtain ⟨px, hpx, rfl⟩ := hyr
  rcases getD_mem_or_default px c 0 with hmem | hdef
  · left
    simp only [elems3, elems2, List.mem_flatten, List.mem_map]
    exact ⟨row.flatten, ⟨row, hrow, rfl⟩, List.mem_flatten.mpr ⟨px, hpx, hmem⟩⟩
  · right
    exact hdef

theorem mem_elems4_moveaxisLast1 {y : ℚ} {v : List (List (List (List ℚ)))}
    (h : y ∈ elems4 (moveaxisLast1 v)) : y ∈ elems4 v ∨ y = 0 := by
  simp only [moveaxisLast1, elems4, List.mem_flatten, List.mem_map] at h
  obtain ⟨s, ⟨t, ⟨fr, hfr, rfl⟩, rfl⟩, hy⟩ := h
  rcases mem_elems3_moveaxisFrame hy with hmem | hdef
  · left
    simp only [elems4, List.mem_flatten, List.mem_map]
    exact ⟨elems3 fr, ⟨fr, hfr, rfl⟩, hmem⟩
  · right
    exact hdef

/-- C2: every pixel value of the image returned by __getitem__ of the image
adapter lies in [0, 1], assuming every stored pixel value lies in
[0, 255] (the raw image is divided by 255). -/
theorem C2_image_pixels_unit_interval
    (sample_sequence : Nat → ImageSample) (idx : Nat)
    (hpix : ∀ p ∈ elems4 (sample_sequence idx).img.val, 0 ≤ p ∧ p ≤ 255) :
    ∀ x ∈ elems4 (imageGetItem sample_sequence idx).obs.image.val,
      0 ≤ x ∧ x ≤ 1 := by
  intro x hx
  have hx4 : x ∈ (elems4 (moveaxisLast1 (sample_sequence idx).img.val)).map
      (fun p => p / 255) := by
    simpa [imageGetItem, imageSampleToData, elems4_map] using hx
  obtain ⟨y, hy, rfl⟩ := List.mem_map.mp hx4
  rcases mem_elems4_moveaxisLast1 hy with hmem | hdef
  · obtain ⟨h0, h255⟩ := hpix y hmem
    constructor
    · exact div_nonneg h0 (by norm_num)
    · exact (div_le_one (by norm_num)).mpr h255
  · subst hdef
    norm_num

/-- C3: for every index, assuming the sampled window's state and action
arrays have leading dimension horizon and the state rows have at least two
entries, __getitem__ of the image adapter returns agent_pos of shape
(horizon, 2), an action with leading dimension horizon, and both agent_pos
and action carry dtype float32. -/
theorem C3_getitem_shapes_and_dtypes
    (sample_sequence : Nat → ImageSample) (idx horizon : Nat)
    (hstate : (sample_sequence idx).state.val.length = horizon)
    (hcols : ∀ r ∈ (sample_sequence idx).state.val, 2 ≤ r.length)
    (haction : (sample_sequence idx).action.val.length = horizon) :
    (imageGetItem sample_sequence idx).obs.agent_pos.val.length = horizon ∧
    (∀ r ∈ (imageGetItem sample_sequence idx).obs.agent_pos.val,
       r.length = 2) ∧
    (imageGetItem sample_sequence idx).action.val.length = horizon ∧
    (imageGetItem sample_sequence idx).obs.agent_pos.dtype = DType.float32 ∧
    (imageGetItem sample_sequence idx).action.dtype = DType.float32 := by
  refine ⟨?_, ?_, haction, rfl, rfl⟩
  · simpa [imageGetItem, imageSampleToData] using hstate
  · intro r hr
    simp only [imageGetItem, imageSampleToData, List.mem_map] at hr
    obtain ⟨row, hrow, rfl⟩ := hr
    have h2 := hcols row hrow
    simp [List.length_take, Nat.min_eq_left h2]

theorem zipWith_append_getD_length (a b : List (List ℚ))
    (hab : a.length = b.length) (i : Nat) :
    ((List.zipWith (fun s g => s ++ g) a b).getD i []).length
      = (a.getD i []).length + (b.getD i []).length := by
  induction a generalizing b i with
  | nil =>
    cases b with
    | nil => simp [List.getD]
    | cons y ys => simp at hab
  | cons x xs ih =>
    cases b with
    | nil => simp at hab
    | cons y ys =>
      cases i with
      | zero => simp
      | succ k => simpa using ih ys (by simpa using hab) k

/-- C6: a window accepted by the lowdim record-building transform yields an
obs array that is the rowwise concatenation of the flattened observation
field with the goal field: its leading dimension equals that of both input
fields and each row's feature dimension is the flattened per-timestep
observation dimension plus the goal dimension. -/
theorem C6_lowdim_transform_shape (obs_key state_key action_key : String)
    (sample : List (String × FieldArr)) (data : LowdimData)
    (h : lowdimSampleToData obs_key state_key action_key sample = some data) :
    ∃ state goal goal2,
      lookupF sample obs_key = some state ∧
      lookupF sample state_key = some goal ∧
      asRows2 goal = some goal2 ∧
      data.obs = List.zipWith (fun s g => s ++ g) (reshapeRows state) goal2 ∧
      data.obs.length = (reshapeRows state).length ∧
      data.obs.length = goal2.length ∧
      (∀ i, (data.obs.getD i []).length
        = ((reshapeRows state).getD i []).length + (goal2.getD i []).length) := by
  unfold lowdimSampleToData at h
  cases hst : lookupF sample obs_key with
  | none => rw [hst] at h; simp at h
  | some state =>
  cases hg : lookupF sample state_key with
  | none => rw [hst, hg] at h; simp at h
  | some goal =>
  cases ha : lookupF sample action_key with
  | none => rw [hst, hg, ha] at h; simp at h
  | some action =>
    rw [hst, hg, ha] at h
    simp only [Option.bind_eq_bind, Option.some_bind] at h
    cases h2 : asRows2 goal with
    | none => rw [h2] at h; simp at h
    | some goal2 =>
      rw [h2] at h
      simp only [Option.bind_eq_bind, Option.some_bind] at h
      split at h
      case isTrue hlen =>
        obtain rfl := (Option.some.injEq _ _).mp h
        refine ⟨state, goal, goal2, rfl, rfl, h2, rfl, ?_, ?_, ?_⟩
        · simp [List.length_zipWith, hlen]
        · simp [List.length_zipWith, hlen]
        · intro i
          exact zipWith_append_getD_length _ _ hlen i
      case isFalse hlen => simp at h

/-- C7: the image adapter's get_normalizer fits on exactly two data
entries, the full unwindowed action array under key action and the first
two columns of the full unwindowed state array under key agent_pos, with
last_n_dims = 1 and the requested mode, and the image entry is the fixed
range normalizer, not fit from stored data. -/
theorem C7_image_normalizer_entries (d : ImageDS) (mode : String) :
    (imageGetNormalizer d mode).fit_data.length = 2 ∧
    (imageGetNormalizer d mode).fit_data.map Prod.fst
      = ["action", "agent_pos"] ∧
    (imageGetNormalizer d mode).fit_data
      = [ ("action", d.replay_buffer.action)
        , ("agent_pos",
           { dtype := d.replay_buffer.state.dtype
           , val := d.replay_buffer.state.val.map (List.take 2) }) ] ∧
    (imageGetNormalizer d mode).last_n_dims = 1 ∧
    (imageGetNormalizer d mode).mode = mode ∧
    (imageGetNormalizer d mode).image = ImageEntry.rangeNormalizer :=
  ⟨rfl, rfl, rfl, rfl, rfl, rfl⟩

/-- C8: the lowdim adapter's get_normalizer fits on the obs/action record
obtained by applying the record-building transform to the full unwindowed
fields of the replay buffer, with last_n_dims = 1. -/
theorem C8_lowdim_normalizer_full_buffer (d : LowdimDS) (mode : String)
    (state goal action : FieldArr) (goal2 : List (List ℚ))
    (hs : lookupF d.replay_buffer.fields d.obs_key = some state)
    (hg : lookupF d.replay_buffer.fields d.state_key = some goal)
    (ha : lookupF d.replay_buffer.fields d.action_key = some action)
    (h2 : asRows2 goal = some goal2)
    (hlen : (reshapeRows state).length = goal2.length) :
    lowdimGetNormalizer d mode = some
      { fit_data :=
        { obs := List.zipWith (fun s g => s ++ g) (reshapeRows state) goal2
        , action := action }
      , last_n_dims := 1
      , mode := mode } := by
  simp [lowdimGetNormalizer, lowdimSampleToData, hs, hg, ha, h2, hlen]

/-! Lookup lemmas for the noninterference statement. -/

theorem lookupF_map_window (rows : List Nat)
    (l : List (String × FieldArr)) (k : String) :
    lookupF (l.map (fun p => (p.1, windowField rows p.2))) k
      = (lookupF l k).map (windowField rows) := by
  induction l with
  | nil => rfl
  | cons p t ih =>
    obtain ⟨a, f⟩ := p
    by_cases hak : a = k
    · simp [lookupF, hak]
    · simp [lookupF, hak, ih]

theorem lookupF_filter_of_mem (keys : List String)
    (l : List (String × FieldArr)) (k : String)
    (hk : k ∈ keys) :
    lookupF (l.filter (fun p => keys.contains p.1)) k = lookupF l k := by
  induction l with
  | nil => rfl
  | cons p t ih =>
    obtain ⟨a, f⟩ := p
    by_cases hak : a = k
    · subst hak
      rw [List.filter_cons, if_pos (by simpa using hk)]
      simp [lookupF]
    · by_cases hmem : a ∈ keys
      · rw [List.filter_cons, if_pos (by simpa using hmem)]
        simp only [lookupF, if_neg hak]
        exact ih
      · rw [List.filter_cons, if_neg (by simpa using hmem)]
        rw [ih]
        simp only [lookupF, if_neg hak]

theorem lowdimSampleToData_congr (obs_key state_key action_key : String)
    (sa sb : List (String × FieldArr))
    (h1 : lookupF sa obs_key = lookupF sb obs_key)
    (h2 : lookupF sa state_key = lookupF sb state_key)
    (h3 : lookupF sa action_key = lookupF sb action_key) :
    lowdimSampleToData obs_key state_key action_key sa
      = lowdimSampleToData obs_key state_key action_key sb := by
  unfold lowdimSampleToData
  rw [h1, h2, h3]

/-- C9: the mask_key field of the lowdim store is loaded at construction
but never read afterwards: for any two stores whose obs_key, state_key and
action_key fields agree, the outputs of __getitem__ (at every index),
get_normalizer and get_all_actions of the constructed datasets coincide,
whatever the contents of the remaining fields, in particular of the
mask_key field. -/
theorem C9_mask_key_noninterference
    (get_val_mask : Nat → ℚ → Nat → List Bool)
    (downsample_mask : List Bool → Option Nat → Nat → List Bool)
    (rowsOf : Nat → List Nat)
    (s1 s2 : LowdimReplayBuffer) (horizon pad_before pad_after : Nat)
    (obs_key state_key action_key mask_key : String)
    (seed : Nat) (val_ratio : ℚ) (max_train_episodes : Option Nat)
    (mode : String)
    (hobs : lookupF s1.fields obs_key = lookupF s2.fields obs_key)
    (hst : lookupF s1.fields state_key = lookupF s2.fields state_key)
    (hac : lookupF s1.fields action_key = lookupF s2.fields action_key) :
    (∀ idx,
      lowdimGetItem rowsOf (lowdimDatasetInit get_val_mask downsample_mask
        s1 horizon pad_before pad_after obs_key state_key action_key
        mask_key seed val_ratio max_train_episodes) idx
      = lowdimGetItem rowsOf (lowdimDatasetInit get_val_mask downsample_mask
        s2 horizon pad_before pad_after obs_key state_key action_key
        mask_key seed val_ratio max_train_episodes) idx) ∧
    lowdimGetNormalizer (lowdimDatasetInit get_val_mask downsample_mask
        s1 horizon pad_before pad_after obs_key state_key action_key
        mask_key seed val_ratio max_train_episodes) mode
      = lowdimGetNormalizer (lowdimDatasetInit get_val_mask downsample_mask
        s2 horizon pad_before pad_after obs_key state_key action_key
        mask_key seed val_ratio max_train_episodes) mode ∧
    lowdimGetAllActions (lowdimDatasetInit get_val_mask downsample_mask
        s1 horizon pad_before pad_after obs_key state_key action_key
        mask_key seed val_ratio max_train_episodes)
      = lowdimGetAllActions (lowdimDatasetInit get_val_mask downsample_mask
        s2 horizon pad_before pad_after obs_key state_key action_key
        mask_key seed val_ratio max_train_episodes) := by
  have hc1 : obs_key ∈ [obs_key, state_key, action_key, mask_key] := by simp
  have hc2 : state_key ∈ [obs_key, state_key, action_key, mask_key] := by simp
  have hc3 : action_key ∈ [obs_key, state_key, action_key, mask_key] := by simp
  have hfo : lookupF (copyFromPath s1
        [obs_key, state_key, action_key, mask_key]).fields obs_key
      = lookupF (copyFromPath s2
        [obs_key, state_key, action_key, mask_key]).fields obs_key := by
    simp only [copyFromPath]
    rw [lookupF_filter_of_mem _ _ _ hc1,
        lookupF_filter_of_mem _ _ _ hc1, hobs]
  have hfs : lookupF (copyFromPath s1
        [obs_key, state_key, action_key, mask_key]).fields state_key
      = lookupF (copyFromPath s2
        [obs_key, state_key, action_key, mask_key]).fields state_key := by
    simp only [copyFromPath]
    rw [lookupF_filter_of_mem _ _ _ hc2,
        lookupF_filter_of_mem _ _ _ hc2, hst]
  have hfa : lookupF (copyFromPath s1
        [obs_key, state_key, action_key, mask_key]).fields action_key
      = lookupF (copyFromPath s2
        [obs_key, state_key, action_key, mask_key]).fields action_key := by
    simp only [copyFromPath]
    rw [lookupF_filter_of_mem _ _ _ hc3,
        lookupF_filter_of_mem _ _ _ hc3, hac]
  refine ⟨?_, ?_, ?_⟩
  · intro idx
    simp only [lowdimGetItem, lowdimDatasetInit, sampleSequence]
    apply lowdimSampleToData_congr
    · rw [lookupF_map_window, lookupF_map_window, hfo]
    · rw [lookupF_map_window, lookupF_map_window, hfs]
    · rw [lookupF_map_window, lookupF_map_window, hfa]
  · simp only [lowdimGetNormalizer, lowdimDatasetInit]
    rw [lowdimSampleToData_congr _ _ _ _ _ hfo hfs hfa]
  · simp only [lowdimGetAllActions, lowdimDatasetInit]
    exact hfa

/-! Concrete fixtures used by the witnesses. -/

/-- A concrete image window: one frame of one row of two pixels with two
channels each, one state row of three features, one action row. -/
def imgSampleFix : ImageSample :=
  { img := ⟨.uint8, [[[[100, 200], [0, 255]]]]⟩
  , state := ⟨.float64, [[1, 2, 3]]⟩
  , action := ⟨.float64, [[4, 5]]⟩ }

/-- A validation-mask function returning the all-false mask. -/
def gvmConst : Nat → ℚ → Nat → List Bool := fun n _ _ => List.replicate n false

/-- A downsampling function returning its input unchanged. -/
def dsmId : List Bool → Option Nat → Nat → List Bool := fun m _ _ => m

/-- A downsampling function returning the empty mask; it satisfies both
parts of the downsample_mask contract. -/
def dsmNil : List Bool → Option Nat → Nat → List Bool := fun _ _ _ => []

/-- A concrete image replay buffer with two episodes. -/
def rbA : ImageReplayBuffer :=
  ⟨2, ⟨.uint8, [[[[100]]]]⟩, ⟨.float64, [[1, 2, 3]]⟩, ⟨.float64, [[4, 5]]⟩⟩

/-- Another image replay buffer with two episodes but different contents. -/
def rbB : ImageReplayBuffer :=
  ⟨2, ⟨.uint8, []⟩, ⟨.float64, []⟩, ⟨.float64, []⟩⟩

/-- A concrete lowdim store with two episodes and four fields. -/
def storeA : LowdimReplayBuffer :=
  ⟨2, [("pos", .f3 [[[1, 2], [3, 4]]]), ("goal", .f2 [[5]]),
       ("act", .f2 [[9]]), ("msk", .f2 [[1]])]⟩

/-- The same lowdim store with only the msk field's contents changed. -/
def storeB : LowdimReplayBuffer :=
  ⟨2, [("pos", .f3 [[[1, 2], [3, 4]]]), ("goal", .f2 [[5]]),
       ("act", .f2 [[9]]), ("msk", .f2 [[0], [7], [8]])]⟩

/-- A concrete lowdim window with observation, goal and action fields. -/
def lowSampleFix : List (String × FieldArr) :=
  [("pos", .f3 [[[1, 2], [3, 4]]]), ("goal", .f2 [[5]]), ("act", .f2 [[9]])]

/-- A concrete lowdim dataset built over storeA. -/
def lowDSFix : LowdimDS :=
  lowdimDatasetInit gvmConst dsmId storeA 1 0 0 "pos" "goal" "act" "msk"
    42 0 none

/-- Witness for C2 at the concrete image window. -/
theorem C2_image_pixels_unit_interval_witness :
    (∀ p ∈ elems4 ((fun _ : Nat => imgSampleFix) 0).img.val,
       0 ≤ p ∧ p ≤ 255) ∧
    (∀ x ∈ elems4 (imageGetItem (fun _ => imgSampleFix) 0).obs.image.val,
       0 ≤ x ∧ x ≤ 1) :=
  ⟨by decide,
   C2_image_pixels_unit_interval (fun _ => imgSampleFix) 0 (by decide)⟩

/-- Witness for C3 at the concrete image window with horizon 1. -/
theorem C3_getitem_shapes_and_dtypes_witness :
    (((fun _ : Nat => imgSampleFix) 0).state.val.length = 1 ∧
     (∀ r ∈ ((fun _ : Nat => imgSampleFix) 0).state.val, 2 ≤ r.length) ∧
     ((fun _ : Nat => imgSampleFix) 0).action.val.length = 1) ∧
    ((imageGetItem (fun _ => imgSampleFix) 0).obs.agent_pos.val.length = 1 ∧
     (∀ r ∈ (imageGetItem (fun _ => imgSampleFix) 0).obs.agent_pos.val,
        r.length = 2) ∧
     (imageGetItem (fun _ => imgSampleFix) 0).action.val.length = 1 ∧
     (imageGetItem (fun _ => imgSampleFix) 0).obs.agent_pos.dtype
        = DType.float32 ∧
     (imageGetItem (fun _ => imgSampleFix) 0).action.dtype = DType.float32) :=
  ⟨⟨rfl, by decide, rfl⟩,
   C3_getitem_shapes_and_dtypes (fun _ => imgSampleFix) 0 1 rfl (by decide) rfl⟩

/-- Witness for C4 at two stores of each kind with equal episode counts. -/
theorem C4_train_mask_deterministic_witness :
    rbA.n_episodes = rbB.n_episodes ∧
    storeA.n_episodes = storeB.n_episodes ∧
    ((imageDatasetInit gvmConst dsmId rbA 1 0 0 42 0 none).train_mask
       = (imageDatasetInit gvmConst dsmId rbB 2 1 1 42 0 none).train_mask ∧
     (lowdimDatasetInit gvmConst dsmId storeA 1 0 0 "pos" "goal" "act" "msk"
        42 0 none).train_mask
       = (lowdimDatasetInit gvmConst dsmId storeB 3 2 2 "p2" "g2" "a2" "m2"
        42 0 none).train_mask) :=
  ⟨rfl, rfl,
   C4_train_mask_deterministic gvmConst dsmId rbA rbB storeA storeB
     1 0 0 2 1 1 1 0 0 3 2 2 "pos" "goal" "act" "msk" "p2" "g2" "a2" "m2"
     42 0 none rfl rfl⟩

/-- Witness for C5 with a downsampling function satisfying the contract. -/
theorem C5_train_mask_construction_witness :
    (∀ (m : List Bool) (n : Option Nat) (s i : Nat),
        (dsmNil m n s).getD i false = true → m.getD i false = true) ∧
    (∀ (m : List Bool) (k s : Nat), (dsmNil m (some k) s).count true ≤ k) ∧
    (((imageDatasetInit gvmConst dsmNil rbA 1 0 0 42 0 none).train_mask
        = dsmNil ((gvmConst rbA.n_episodes 0 42).map not) none 42 ∧
      (∀ i, (imageDatasetInit gvmConst dsmNil rbA 1 0 0
          42 0 none).train_mask.getD i false = true →
          (gvmConst rbA.n_episodes 0 42).getD i false = false) ∧
      (∀ k, (none : Option Nat) = some k →
          (imageDatasetInit gvmConst dsmNil rbA 1 0 0
            42 0 none).train_mask.count true ≤ k)) ∧
     ((lowdimDatasetInit gvmConst dsmNil storeA 1 0 0 "pos" "goal" "act"
          "msk" 42 0 none).train_mask
        = dsmNil ((gvmConst storeA.n_episodes 0 42).map not) none 42 ∧
      (∀ i, (lowdimDatasetInit gvmConst dsmNil storeA 1 0 0 "pos" "goal"
          "act" "msk" 42 0 none).train_mask.getD i false = true →
          (gvmConst storeA.n_episodes 0 42).getD i false = false) ∧
      (∀ k, (none : Option Nat) = some k →
          (lowdimDatasetInit gvmConst dsmNil storeA 1 0 0 "pos" "goal"
            "act" "msk" 42 0 none).train_mask.count true ≤ k))) := by
  have hsub : ∀ (m : List Bool) (n : Option Nat) (s i : Nat),
      (dsmNil m n s).getD i false = true → m.getD i false = true := by
    intro m n s i h
    simp [dsmNil, List.getD] at h
  have hcount : ∀ (m : List Bool) (k s : Nat),
      (dsmNil m (some k) s).count true ≤ k := by
    intro m k s
    simp [dsmNil]
  exact ⟨hsub, hcount,
    C5_train_mask_construction gvmConst dsmNil rbA storeA 1 0 0 1 0 0
      "pos" "goal" "act" "msk" 42 0 none hsub hcount⟩

/-- Witness for C6 at a concrete lowdim window. -/
theorem C6_lowdim_transform_shape_witness :
    lowdimSampleToData "pos" "goal" "act" lowSampleFix
      = some (LowdimData.mk [[1, 2, 3, 4, 5]] (.f2 [[9]])) ∧
    (∃ state goal goal2,
      lookupF lowSampleFix "pos" = some state ∧
      lookupF lowSampleFix "goal" = some goal ∧
      asRows2 goal = some goal2 ∧
      (LowdimData.mk [[1, 2, 3, 4, 5]] (.f2 [[9]])).obs
        = List.zipWith (fun s g => s ++ g) (reshapeRows state) goal2 ∧
      (LowdimData.mk [[1, 2, 3, 4, 5]] (.f2 [[9]])).obs.length
        = (reshapeRows state).length ∧
      (LowdimData.mk [[1, 2, 3, 4, 5]] (.f2 [[9]])).obs.length
        = goal2.length ∧
      (∀ i, ((LowdimData.mk [[1, 2, 3, 4, 5]]
          (.f2 [[9]])).obs.getD i []).length
        = ((reshapeRows state).getD i []).length
          + (goal2.getD i []).length)) :=
  ⟨by decide,
   C6_lowdim_transform_shape "pos" "goal" "act" lowSampleFix
     (LowdimData.mk [[1, 2, 3, 4, 5]] (.f2 [[9]])) (by decide)⟩

/-- Witness for C8 at the concrete lowdim dataset. -/
theorem C8_lowdim_normalizer_full_buffer_witness :
    lookupF lowDSFix.replay_buffer.fields lowDSFix.obs_key
      = some (.f3 [[[1, 2], [3, 4]]]) ∧
    lookupF lowDSFix.replay_buffer.fields lowDSFix.state_key
      = some (.f2 [[5]]) ∧
    lookupF lowDSFix.replay_buffer.fields lowDSFix.action_key
      = some (.f2 [[9]]) ∧
    asRows2 (.f2 [[5]]) = some [[5]] ∧
    (reshapeRows (.f3 [[[1, 2], [3, 4]]])).length
      = ([[(5 : ℚ)]] : List (List ℚ)).length ∧
    lowdimGetNormalizer lowDSFix "limits" = some
      { fit_data :=
        { obs := List.zipWith (fun s g => s ++ g)
            (reshapeRows (.f3 [[[1, 2], [3, 4]]])) [[5]]
        , action := .f2 [[9]] }
      , last_n_dims := 1
      , mode := "limits" } :=
  ⟨by decide, by decide, by decide, by decide, by decide,
   C8_lowdim_normalizer_full_buffer lowDSFix "limits"
     (.f3 [[[1, 2], [3, 4]]]) (.f2 [[5]]) (.f2 [[9]]) [[5]]
     (by decide) (by decide) (by decide) (by decide) (by decide)⟩

/-- Witness for C9 at two concrete stores differing only in the msk
field's contents. -/
theorem C9_mask_key_noninterference_witness :
    lookupF storeA.fields "pos" = lookupF storeB.fields "pos" ∧
    lookupF storeA.fields "goal" = lookupF storeB.fields "goal" ∧
    lookupF storeA.fields "act" = lookupF storeB.fields "act" ∧
    ((∀ idx,
      lowdimGetItem (fun _ => [0]) (lowdimDatasetInit gvmConst dsmId
        storeA 1 0 0 "pos" "goal" "act" "msk" 42 0 none) idx
      = lowdimGetItem (fun _ => [0]) (lowdimDatasetInit gvmConst dsmId
        storeB 1 0 0 "pos" "goal" "act" "msk" 42 0 none) idx) ∧
    lowdimGetNormalizer (lowdimDatasetInit gvmConst dsmId
        storeA 1 0 0 "pos" "goal" "act" "msk" 42 0 none) "limits"
      = lowdimGetNormalizer (lowdimDatasetInit gvmConst dsmId
        storeB 1 0 0 "pos" "goal" "act" "msk" 42 0 none) "limits" ∧
    lowdimGetAllActions (lowdimDatasetInit gvmConst dsmId
        storeA 1 0 0 "pos" "goal" "act" "msk" 42 0 none)
      = lowdimGetAllActions (lowdimDatasetInit gvmConst dsmId
        storeB 1 0 0 "pos" "goal" "act" "msk" 42 0 none)) :=
  ⟨by decide, by decide, by decide,
   C9_mask_key_noninterference gvmConst dsmId (fun _ => [0]) storeA storeB
     1 0 0 "pos" "goal" "act" "msk" 42 0 none "limits"
     (by decide) (by decide) (by decide)⟩

end BoxDelivery
